import Mathlib

/-!
Verification development for the Delivery_Carries_Love repository.

The repository contains two near-duplicate Python scripts, `carries.py` and
`carries_love.py`.  Both implement a strategy/decorator shipping-cost engine,
a factory resolving strategies by Korean-language keys, and an observer-based
tracked package with an append-only status history.  This file gives a shallow
embedding of both scripts:

* Monetary amounts and weights (Python floats holding exact decimal constants)
  are modelled as rationals (`ℚ`).
* Timestamps (`datetime`) are modelled as integers counting hours; a
  `timedelta(days = d, hours = h)` becomes the integer `24 * d + h`.
* Observers referenced through `weakref.ref` are modelled as numeric
  identifiers together with an explicit liveness map `live : Nat → Bool`;
  a dead referent corresponds to `live o = false`.
* `notify`, which performs calls on observer objects, is modelled as the list
  of delivered events `(observer, state)` in delivery order.
* Python exceptions (`ValueError` from the factory, `TypeError` from a call
  with too many positional arguments) are modelled with `Except String`.

The observer code (`Subject`, `Observer`, `PackageTracker`, `TrackedPackage`)
is textually identical in the two scripts and is embedded once at top level.
-/

namespace DeliveryCarriesLove

/-- Observer identifiers: stand-ins for Python object identity of observers
held through `weakref.ref`. -/
abbrev ObsId := Nat

/-- A Python `dict` from event-type strings to lists of weak references,
modelled as an insertion-ordered association list (Python dicts preserve
insertion order). -/
abbrev ObsDict := List (String × List ObsId)

/-- Read `d[k]`, returning `none` when the key is absent. -/
def dictGet (d : ObsDict) (k : String) : Option (List ObsId) :=
  (d.find? (fun e => e.1 == k)).map (fun e => e.2)

/-- Write `d[k] = v`: replace the value of an existing key in place, or append
the new key at the end (Python dict insertion order). -/
def dictSet : ObsDict → String → List ObsId → ObsDict
  | [], k, v => [(k, v)]
  | e :: rest, k, v => if e.1 == k then (k, v) :: rest else e :: dictSet rest k v

/-- Embedding of class `Subject` (`carries.py` lines 275-299; identical in
`carries_love.py`): `_observers` is the per-event-type dict of weak
references, `_state` the current state (initially `None`). -/
structure Subject where
  observers : ObsDict
  state : Option String
  deriving DecidableEq

/-- The registration list stored under `event_type`, as `notify` reads it:
`self._observers.get(event_type, [])`. -/
def Subject.regsOf (s : Subject) (et : String) : List ObsId :=
  (dictGet s.observers et).getD []

/-- `Subject.attach`: create the entry if absent, then append the new weak
reference at the end of the list. -/
def Subject.attach (s : Subject) (o : ObsId) (et : String) : Subject :=
  { s with observers := dictSet s.observers et (s.regsOf et ++ [o]) }

/-- `Subject.detach`: `self._observers[event_type].remove(weakref.ref(observer))`,
with `ValueError` (element absent) and `KeyError` (key absent) swallowed, so the
first matching registration is removed if present and otherwise nothing
happens.  `List.erase` removes exactly the first occurrence. -/
def Subject.detach (s : Subject) (o : ObsId) (et : String) : Subject :=
  match dictGet s.observers et with
  | none => s
  | some l => { s with observers := dictSet s.observers et (l.erase o) }

/-- `Subject.notify`: walk the registration list for `event_type` in order,
dereference each weak reference, skip dead ones, and call
`observer.update(self._state)` on live ones.  The result is the list of
delivered `(observer, state)` events in delivery order; the observer dict is
only read, never modified. -/
def Subject.notify (s : Subject) (et : String) (live : ObsId → Bool) :
    List (ObsId × Option String) :=
  (s.regsOf et).filterMap (fun o => if live o then some (o, s.state) else none)

/-- `Subject.set_state`: assign `self._state = state`, then call
`self.notify(event_type)`.  Returns the updated subject together with the
events delivered by the embedded `notify` call. -/
def Subject.set_state (s : Subject) (st et : String) (live : ObsId → Bool) :
    Subject × List (ObsId × Option String) :=
  let s1 : Subject := { s with state := some st }
  (s1, s1.notify et live)

/-- Embedding of class `PackageTracker` (`carries.py` lines 316-326; identical
in `carries_love.py`), with the history list taken by value.  The companion
reference-semantics model `RefModel.PackageTracker` below captures the fact
that the Python `history` attribute is a mutable heap object. -/
structure PackageTracker where
  package_id : String
  history : List String
  deriving DecidableEq

/-- `PackageTracker.update_status`: `self.history.append(status)` (the log
line printed afterwards is I/O and not modelled). -/
def PackageTracker.update_status (t : PackageTracker) (status : String) :
    PackageTracker :=
  { t with history := t.history ++ [status] }

/-- `PackageTracker.get_history`: `return self.history`. -/
def PackageTracker.get_history (t : PackageTracker) : List String :=
  t.history

/-- Embedding of class `TrackedPackage(Subject)` (`carries.py` lines 329-337;
identical in `carries_love.py`): the inherited `Subject` fields plus the
`tracker` attribute. -/
structure TrackedPackage where
  subj : Subject
  tracker : PackageTracker
  deriving DecidableEq

/-- Inherited `Subject.attach` acting on a `TrackedPackage`. -/
def TrackedPackage.attach (p : TrackedPackage) (o : ObsId) (et : String) :
    TrackedPackage :=
  { p with subj := p.subj.attach o et }

/-- Inherited `Subject.detach` acting on a `TrackedPackage`. -/
def TrackedPackage.detach (p : TrackedPackage) (o : ObsId) (et : String) :
    TrackedPackage :=
  { p with subj := p.subj.detach o et }

/-- `TrackedPackage.set_state`, the override of `Subject.set_state`: first
`self.tracker.update_status(state)`, then `self._state = state`, then
`self.notify(event_type)`.  The delivered events are computed from the package
value obtained after the history append and the state assignment, which is
exactly the object an observer sees when its `update` callback runs. -/
def TrackedPackage.set_state (p : TrackedPackage) (st et : String)
    (live : ObsId → Bool) : TrackedPackage × List (ObsId × Option String) :=
  let p1 : TrackedPackage := { p with tracker := p.tracker.update_status st }
  let p2 : TrackedPackage := { p1 with subj := { p1.subj with state := some st } }
  (p2, p2.subj.notify et live)

namespace RefModel

/-- Reference-semantics model of the mutable Python lists held by trackers:
a heap assigning to every list address its current contents.  Used to state
what `get_history` hands back to callers. -/
structure Heap where
  cells : Nat → List String

/-- Dereference a list address. -/
def Heap.read (h : Heap) (r : Nat) : List String :=
  h.cells r

/-- Overwrite the contents of a list address. -/
def Heap.write (h : Heap) (r : Nat) (v : List String) : Heap :=
  ⟨fun q => if q = r then v else h.cells q⟩

/-- The Python built-in `list.clear()` applied through a list reference:
an in-place mutation available to any caller holding the reference. -/
def listClear (h : Heap) (r : Nat) : Heap :=
  h.write r []

/-- `PackageTracker` under reference semantics: the `history` attribute is the
address of a heap-allocated list. -/
structure PackageTracker where
  package_id : String
  historyRef : Nat

/-- `update_status` under reference semantics: append `status` in place to the
list the tracker's `history` attribute refers to. -/
def PackageTracker.update_status (h : Heap) (t : PackageTracker)
    (status : String) : Heap :=
  h.write t.historyRef (h.read t.historyRef ++ [status])

/-- `get_history` under reference semantics: `return self.history` returns the
list object itself, i.e. the reference, not a copy. -/
def PackageTracker.get_history (t : PackageTracker) : Nat :=
  t.historyRef

end RefModel

namespace Carries

/-- The closed set of strategy objects constructible by `carries.py`:
the three base shipping methods, the eight carrier companies, and the
insurance decorator wrapping another strategy. -/
inductive Strategy where
  | standard
  | nextDay
  | international
  | hanjin
  | postOffice
  | cj
  | lotte
  | dhl
  | amazon
  | ems
  | fedex
  | insurance (wrapped : Strategy)
  deriving DecidableEq

/-- The `weight_based_fee` method, defined with identical bodies in
`StandardShipping`, `NextDayShipping` and `InternationalShipping`
(`carries.py` lines 46-52, 68-74, 90-96). -/
def weight_based_fee (w : ℚ) : ℚ :=
  if w ≤ 5 then 0 else if w ≤ 10 then 2000 else 5000 + (w - 10) * 100

/-- Dynamic dispatch of `calculate_cost` as each class body computes it.
Base methods add their fixed `base_cost` constant to `weight_based_fee`;
companies return flat amounts; `InsuranceDecorator.calculate_cost` (declared
with parameters `(item_value, item_weight = 0)`, no country parameter) returns
`super().calculate_cost(item_value, "", item_weight) + item_value * 0.1`. -/
def calculate_cost : Strategy → ℚ → String → ℚ → ℚ
  | .standard, _, _, w => 5000 + weight_based_fee w
  | .nextDay, _, _, w => 20000 + weight_based_fee w
  | .international, _, _, w => 15000 + weight_based_fee w
  | .hanjin, _, _, _ => 2500
  | .postOffice, _, _, _ => 2000
  | .cj, _, _, _ => 3000
  | .lotte, _, _, _ => 2500
  | .dhl, _, _, _ => 40000
  | .amazon, _, _, _ => 40000
  | .ems, _, _, _ => 40000
  | .fedex, _, _, _ => 40000
  | .insurance s, v, _, w => calculate_cost s v "" w + v * (1 / 10)

/-- Number of positional arguments (after `self`) the dynamically dispatched
`calculate_cost` method of each object accepts.  Every implementation takes
`(item_value, destination_country = "", item_weight = 0)` except
`InsuranceDecorator.calculate_cost`, declared with only
`(item_value, item_weight = 0)` (`carries.py` line 126). -/
def cost_arity : Strategy → Nat
  | .insurance _ => 2
  | _ => 3

/-- The Python call `obj.calculate_cost(item_value, destination_country,
item_weight)` with three positional arguments: it raises `TypeError` when the
receiving method accepts fewer, and otherwise evaluates the method body. -/
def call_calculate_cost (s : Strategy) (v : ℚ) (c : String) (w : ℚ) :
    Except String ℚ :=
  if 3 ≤ cost_arity s then Except.ok (calculate_cost s v c w)
  else Except.error
    "TypeError: calculate_cost() takes from 2 to 3 positional arguments but 4 were given"

/-- `calculate_arrival_time` per class, in hours: each adds its fixed
`timedelta(days, hours)` (as `24 * days + hours`); the insurance decorator
delegates to its wrapped strategy. -/
def calculate_arrival_time : Strategy → Int → Int
  | .standard, t => t + 48
  | .nextDay, t => t + 24
  | .international, t => t + 168
  | .hanjin, t => t + 75
  | .postOffice, t => t + 26
  | .cj, t => t + 53
  | .lotte, t => t + 84
  | .dhl, t => t + 120
  | .amazon, t => t + 168
  | .ems, t => t + 120
  | .fedex, t => t + 168
  | .insurance s, t => calculate_arrival_time s t

/-- Rendering of a model timestamp inside an f-string (stand-in for Python's
`str(datetime)`). -/
def fmtTime (t : Int) : String := toString t

/-- `get_delivery_steps` per class: each concrete class first computes
`self.calculate_arrival_time(departure_time)` and then returns its fixed
narrative list; the insurance decorator delegates to its wrapped strategy. -/
def get_delivery_steps : Strategy → String → String → Int → List String
  | .standard, dest, orig, t =>
      [orig ++ "에서 " ++ fmtTime t ++ "에 출발", "배송 중",
       dest ++ "에 " ++ fmtTime (t + 48) ++ "에 도착", "배송 완료"]
  | .nextDay, dest, orig, t =>
      [orig ++ "에서 " ++ fmtTime t ++ "에 출발", "배송 중",
       dest ++ "에 " ++ fmtTime (t + 24) ++ "에 도착", "배송 완료"]
  | .international, dest, orig, t =>
      [orig ++ "에서 " ++ fmtTime t ++ "에 출발", "배송 중",
       dest ++ "에 " ++ fmtTime (t + 168) ++ "에 도착", "배송 완료"]
  | .hanjin, dest, orig, t =>
      [orig ++ "에서 " ++ fmtTime t ++ "에 출발",
       dest ++ "에 " ++ fmtTime (t + 75) ++ "에 도착"]
  | .postOffice, dest, _, t =>
      ["접수", fmtTime (t + 26) ++ " 도착 예정", dest ++ "에 도착"]
  | .cj, dest, _, _ =>
      ["접수", "방금 출발", "지금 배송 중", "오늘 도착 예정", dest ++ " 에 도착"]
  | .lotte, dest, _, _ =>
      ["배송 준비 완료", "배송 중", dest ++ " 에 도착"]
  | .dhl, dest, orig, t =>
      [orig ++ "에서 " ++ fmtTime t ++ "에 출발", "배송 중",
       dest ++ "에 " ++ fmtTime (t + 120) ++ " 에 도착", "배송 완료"]
  | .amazon, dest, orig, t =>
      [orig ++ "에서 " ++ fmtTime t ++ "에 출발", "배송 중",
       dest ++ "에 " ++ fmtTime (t + 168) ++ " 에 도착", "배송 완료"]
  | .ems, dest, orig, t =>
      [orig ++ "에서 " ++ fmtTime t ++ "에 출발", "배송 중",
       dest ++ "에 " ++ fmtTime (t + 120) ++ "에 도착", "배송 완료"]
  | .fedex, dest, orig, t =>
      [orig ++ "에서 " ++ fmtTime t ++ "에 출발", "배송 중",
       dest ++ "에 " ++ fmtTime (t + 168) ++ "에 도착", "배송 완료"]
  | .insurance s, dest, orig, t => get_delivery_steps s dest orig t

/-- The fixed method table `ShippingFactory.strategies` (`carries.py`
lines 240-244). -/
def strategies : List (String × Strategy) :=
  [("일반", .standard), ("익일", .nextDay), ("국제", .international)]

/-- The fixed modifier table `ShippingFactory.decorators` (`carries.py`
lines 246-248). -/
def decorators : List (String × (Strategy → Strategy)) :=
  [("보험", Strategy.insurance)]

/-- The fixed carrier table `ShippingFactory.companies` (`carries.py`
lines 250-259). -/
def companies : List (String × Strategy) :=
  [("한진", .hanjin), ("우체국", .postOffice), ("CJ", .cj), ("롯데", .lotte),
   ("DHL", .dhl), ("Amazon", .amazon), ("EMS", .ems), ("FedEx", .fedex)]

/-- Python truthiness of an `Optional[str]`: falsy when `None` or the empty
string. -/
def truthy : Option String → Bool
  | none => false
  | some s => !s.isEmpty

/-- Python `str()` of an `Optional[str]` as f-strings render it. -/
def pyOptStr : Option String → String
  | none => "None"
  | some s => s

/-- The `ValueError` message built at `carries.py` line 271. -/
def unsupported_msg (ty : String) (dec : Option String) : String :=
  "오류 발생: " ++ ty ++ " 또는 " ++ pyOptStr dec ++ "는 지원되지 않는 옵션입니다."

/-- `ShippingFactory.get_shipping_strategy` (`carries.py` lines 261-271):
if `company` is truthy, index the carrier table; otherwise index the method
table and, if `decorator` is truthy, wrap the method via the modifier table.
Any `KeyError` from the three subscripts is caught and re-raised as the
`ValueError` above.  Resolution takes no state and performs no effect other
than returning or raising. -/
def get_shipping_strategy (ty : String) (dec comp : Option String) :
    Except String Strategy :=
  if truthy comp then
    match companies.lookup (comp.getD "") with
    | some s => Except.ok s
    | none => Except.error (unsupported_msg ty dec)
  else
    match strategies.lookup ty with
    | none => Except.error (unsupported_msg ty dec)
    | some base =>
      if truthy dec then
        match decorators.lookup (dec.getD "") with
        | some d => Except.ok (d base)
        | none => Except.error (unsupported_msg ty dec)
      else Except.ok base

/-- The observer identifier of the single `Branch` created by
`setup_tracked_package`. -/
def branchId : ObsId := 0

/-- The `for step in steps: package.set_state(step, "배송 상태")` loop of the
driver.  Returns the final package together with the trace of `set_state`
calls made, in call order. -/
def runSteps (p : TrackedPackage) (steps : List String) (et : String)
    (live : ObsId → Bool) : TrackedPackage × List String :=
  match steps with
  | [] => (p, [])
  | s :: rest =>
    let p1 := (p.set_state s et live).1
    let r := runSteps p1 rest et live
    (r.1, s :: r.2)

/-- `setup_tracked_package` (`carries.py` lines 340-361), print statements
omitted: create the tracked package, attach the branch under "배송 상태",
resolve the strategy, compute arrival time and cost (the latter via the
three-positional-argument dynamic call of line 352), obtain the delivery
steps, drive `set_state` once per step, and finally detach the branch.
The `departure_time` argument stands for the `datetime.now()` of line 347.
Returns the final package and the `set_state` call trace. -/
def setup_tracked_package (destination origin shipping_type package_id : String)
    (decorator company : Option String) (item_value : ℚ)
    (destination_country : String) (item_weight : ℚ) (departure_time : Int)
    (live : ObsId → Bool) : Except String (TrackedPackage × List String) :=
  let package : TrackedPackage :=
    ⟨⟨[], none⟩, ⟨package_id, []⟩⟩
  let package := package.attach branchId "배송 상태"
  match get_shipping_strategy shipping_type decorator company with
  | .error e => Except.error e
  | .ok shipping_option =>
    let _arrival := calculate_arrival_time shipping_option departure_time
    match call_calculate_cost shipping_option item_value destination_country
        item_weight with
    | .error e => Except.error e
    | .ok _cost =>
      let steps := get_delivery_steps shipping_option destination origin
        departure_time
      let r := runSteps package steps "배송 상태" live
      Except.ok (r.1.detach branchId "배송 상태", r.2)

end Carries

namespace CarriesLove

/-- The closed set of strategy objects constructible by `carries_love.py`:
three base methods, nine carrier companies (Logen is present in this
revision), and two decorators. -/
inductive Strategy where
  | standard
  | nextDay
  | international
  | hanjin
  | logen
  | postOffice
  | cj
  | lotte
  | dhl
  | amazon
  | ems
  | fedex
  | insurance (wrapped : Strategy)
  | priority (wrapped : Strategy)
  deriving DecidableEq

/-- Dynamic dispatch of `calculate_cost(item_value, destination_country)` in
`carries_love.py`: base methods and companies return flat amounts (no weight
parameter exists in this revision); `InsuranceDecorator` adds
`item_value * 0.01`, `PriorityDecorator` adds `10000`, each on top of the
wrapped strategy's cost. -/
def calculate_cost : Strategy → ℚ → String → ℚ
  | .standard, _, _ => 5000
  | .nextDay, _, _ => 20000
  | .international, _, _ => 15000
  | .hanjin, _, _ => 2500
  | .logen, _, _ => 2500
  | .postOffice, _, _ => 2000
  | .cj, _, _ => 3000
  | .lotte, _, _ => 2500
  | .dhl, _, _ => 40000
  | .amazon, _, _ => 40000
  | .ems, _, _ => 40000
  | .fedex, _, _ => 40000
  | .insurance s, v, c => calculate_cost s v c + v * (1 / 100)
  | .priority s, v, c => calculate_cost s v c + 10000

/-- `calculate_arrival_time` per class of `carries_love.py`, in hours; both
decorators delegate to the wrapped strategy unchanged. -/
def calculate_arrival_time : Strategy → Int → Int
  | .standard, t => t + 48
  | .nextDay, t => t + 24
  | .international, t => t + 168
  | .hanjin, t => t + 75
  | .logen, t => t + 50
  | .postOffice, t => t + 26
  | .cj, t => t + 53
  | .lotte, t => t + 84
  | .dhl, t => t + 120
  | .amazon, t => t + 168
  | .ems, t => t + 120
  | .fedex, t => t + 168
  | .insurance s, t => calculate_arrival_time s t
  | .priority s, t => calculate_arrival_time s t

/-- `get_delivery_steps` per class of `carries_love.py`; both decorators
delegate to the wrapped strategy unchanged. -/
def get_delivery_steps : Strategy → String → String → Int → List String
  | .standard, dest, orig, t =>
      [orig ++ "에서 " ++ Carries.fmtTime t ++ "에 출발", "배송 중",
       dest ++ "에 " ++ Carries.fmtTime (t + 48) ++ "에 도착", "배송 완료"]
  | .nextDay, dest, orig, t =>
      [orig ++ "에서 " ++ Carries.fmtTime t ++ "에 출발", "배송 중",
       dest ++ "에 " ++ Carries.fmtTime (t + 24) ++ "에 도착", "배송 완료"]
  | .international, dest, orig, t =>
      [orig ++ "에서 " ++ Carries.fmtTime t ++ "에 출발", "배송 중",
       dest ++ "에 " ++ Carries.fmtTime (t + 168) ++ "에 도착", "배송 완료"]
  | .hanjin, dest, orig, t =>
      [orig ++ "에서 " ++ Carries.fmtTime t ++ "에 출발",
       dest ++ "에 " ++ Carries.fmtTime (t + 75) ++ "에 도착"]
  | .logen, dest, orig, _ =>
      ["택배 발송", orig ++ "에서 출발", dest ++ "에 도착"]
  | .postOffice, dest, _, t =>
      ["접수", Carries.fmtTime (t + 26) ++ " 도착 예정", dest ++ "에 도착"]
  | .cj, dest, _, _ =>
      ["접수", "방금 출발", "지금 배송 중", "오늘 도착 예정", dest ++ "에 도착"]
  | .lotte, dest, _, _ =>
      ["배송 준비 완료", "배송 중", dest ++ "에 도착"]
  | .dhl, dest, orig, t =>
      [orig ++ "에서 " ++ Carries.fmtTime t ++ "에 출발", "배송 중",
       dest ++ "에 " ++ Carries.fmtTime (t + 120) ++ "에 도착", "배송 완료"]
  | .amazon, dest, orig, t =>
      [orig ++ "에서 " ++ Carries.fmtTime t ++ "에 출발", "배송 중",
       dest ++ "에 " ++ Carries.fmtTime (t + 168) ++ "에 도착", "배송 완료"]
  | .ems, dest, orig, t =>
      [orig ++ "에서 " ++ Carries.fmtTime t ++ "에 출발", "배송 중",
       dest ++ "에 " ++ Carries.fmtTime (t + 120) ++ "에 도착", "배송 완료"]
  | .fedex, dest, orig, t =>
      [orig ++ "에서 " ++ Carries.fmtTime t ++ "에 출발", "배송 중",
       dest ++ "에 " ++ Carries.fmtTime (t + 168) ++ "에 도착", "배송 완료"]
  | .insurance s, dest, orig, t => get_delivery_steps s dest orig t
  | .priority s, dest, orig, t => get_delivery_steps s dest orig t

/-- The two modifiers of `carries_love.py`'s decorator table. -/
inductive Modifier where
  | insurance
  | priority
  deriving DecidableEq

/-- Wrap a strategy in the decorator class a modifier denotes. -/
def Modifier.apply : Modifier → Strategy → Strategy
  | .insurance, s => .insurance s
  | .priority, s => .priority s

/-- The additive cost delta each decorator's `calculate_cost` adds to the
wrapped cost, read off the source constants: insurance adds
`item_value * 0.01`, priority adds `10000`. -/
def Modifier.delta : Modifier → ℚ → ℚ
  | .insurance, v => v * (1 / 100)
  | .priority, _ => 10000

end CarriesLove

namespace Carries

/-- Companion definition for the method/modifier leg of the amended resolver
contract, following the spec's wording: look up the method key, failing with
`UnsupportedOption` when absent; when a non-empty modifier key is given, look
it up, failing when absent, and otherwise wrap the resolved method in it. -/
def resolve_tables (ty : String) (dec : Option String) : Except String Strategy :=
  match strategies.lookup ty with
  | none => Except.error (unsupported_msg ty dec)
  | some base =>
    match dec with
    | none => Except.ok base
    | some d =>
      if d.isEmpty then Except.ok base
      else
        match decorators.lookup d with
        | some wrap => Except.ok (wrap base)
        | none => Except.error (unsupported_msg ty dec)

/-- Companion definition for the amended resolver contract, following the
spec's wording: when a non-empty carrier key is given, carrier selection wins —
return its strategy if recognized and fail with `UnsupportedOption` otherwise,
never consulting the method or modifier table; when the carrier key is missing
or empty, resolve through the method/modifier tables. -/
def resolve_spec (ty : String) (dec comp : Option String) :
    Except String Strategy :=
  match comp with
  | some c =>
    if c.isEmpty then resolve_tables ty dec
    else
      match companies.lookup c with
      | some s => Except.ok s
      | none => Except.error (unsupported_msg ty dec)
  | none => resolve_tables ty dec

/-- The fixed `base_cost` constant of each of the three base shipping methods
(`carries.py` lines 55, 77, 99); other strategies have no such constant and
are mapped to 0 (unused). -/
def base_cost : Strategy → ℚ
  | .standard => 5000
  | .nextDay => 20000
  | .international => 15000
  | _ => 0

end Carries

/-- Sample subject for concrete witnesses: one branch observer (id 0) already
attached under the delivery event type, no state yet. -/
def sampleSubject : Subject := ⟨[("배송 상태", [0])], none⟩

/-- Sample liveness map for concrete witnesses: every observer live. -/
def allLive : ObsId → Bool := fun _ => true

/-- Sample tracked package for concrete witnesses. -/
def samplePackage : TrackedPackage := ⟨sampleSubject, ⟨"PKG-1", []⟩⟩

/-! ## Helper lemmas about the observer dictionary -/

theorem dictGet_dictSet_self (d : ObsDict) (k : String) (v : List ObsId) :
    dictGet (dictSet d k v) k = some v := by
  induction d with
  | nil => simp [dictGet, dictSet]
  | cons e rest ih =>
    cases h : e.1 == k with
    | true => simp [dictSet, dictGet, h]
    | false =>
      simp only [dictSet, h, Bool.false_eq_true, if_false]
      simpa [dictGet, List.find?_cons, h] using ih

theorem dictSet_eq_self (d : ObsDict) (k : String) (v : List ObsId)
    (h : dictGet d k = some v) : dictSet d k v = d := by
  induction d with
  | nil => simp [dictGet] at h
  | cons e rest ih =>
    cases he : e.1 == k with
    | true =>
      simp [dictGet, List.find?_cons, he] at h
      obtain ⟨k0, v0⟩ := e
      have hk : k0 = k := eq_of_beq he
      simp [dictSet, he, hk, ← h]
    | false =>
      simp [dictGet, List.find?_cons, he] at h
      simp [dictSet, he, ih (by simpa [dictGet] using h)]

theorem Subject.regsOf_attach_self (s : Subject) (o : ObsId) (et : String) :
    (s.attach o et).regsOf et = s.regsOf et ++ [o] := by
  simp [Subject.attach, Subject.regsOf, dictGet_dictSet_self]

theorem Subject.state_attach (s : Subject) (o : ObsId) (et : String) :
    (s.attach o et).state = s.state := rfl

theorem filterMap_live (live : ObsId → Bool) (st : Option String) :
    ∀ l : List ObsId,
      l.filterMap (fun o => if live o then some (o, st) else none)
        = (l.filter live).map (fun o => (o, st))
  | [] => rfl
  | a :: l => by
    cases h : live a <;>
      simp [List.filterMap_cons, List.filter_cons, h, filterMap_live live st l]

theorem Subject.notify_eq_map (s : Subject) (et : String) (live : ObsId → Bool) :
    s.notify et live = ((s.regsOf et).filter live).map (fun o => (o, s.state)) :=
  filterMap_live live s.state (s.regsOf et)

theorem Subject.regsOf_detach_self (s : Subject) (o : ObsId) (et : String) :
    (s.detach o et).regsOf et = (s.regsOf et).erase o := by
  unfold Subject.detach
  cases h : dictGet s.observers et with
  | none => simp [Subject.regsOf, h]
  | some l => simp [Subject.regsOf, h, dictGet_dictSet_self]

/-! ## Claim C1 -/

/-- Claim C1, counterexample.  With `methodKey = "일반"` (present in the method
table), no modifier, and the unrecognized carrier key `"로젠"` (present only in
the other revision's table), the claim predicts resolution through the method
table, i.e. success; `carries.py`'s resolver instead raises the
`UnsupportedOption` error: an unrecognized non-empty carrier key fails without
ever consulting the method table. -/
theorem C1_counterexample :
    Carries.strategies.lookup "일반" = some Carries.Strategy.standard
    ∧ Carries.get_shipping_strategy "일반" none (some "로젠")
        = Except.error (Carries.unsupported_msg "일반" none) := by
  exact ⟨rfl, rfl⟩

/-- Claim C1, amended: `resolve(methodKey, modifierKey?, carrierKey?)` returns
the carrier's strategy whenever a non-empty `carrierKey` is given and
recognized (`methodKey`/`modifierKey` are then ignored); a non-empty but
unrecognized `carrierKey` fails with `UnsupportedOption` without consulting
the method table; otherwise the method-table entry for `methodKey` is
returned, wrapped in the modifier-table entry when a non-empty `modifierKey`
is given, and resolution fails with `UnsupportedOption` exactly when the
looked-up key (carrier, method, or modifier) is absent from its fixed table.
Resolution is a pure construction: the resolver (`get_shipping_strategy`)
takes no mutable state and returns either a strategy or the error, so a
failed resolution touches neither history nor subscriptions. -/
theorem C1_amended : ∀ (ty : String) (dec comp : Option String),
    Carries.get_shipping_strategy ty dec comp = Carries.resolve_spec ty dec comp
    ∧ ((Carries.get_shipping_strategy ty dec comp).isOk = false ↔
        (Carries.truthy comp = true
          ∧ Carries.companies.lookup (comp.getD "") = none)
        ∨ (Carries.truthy comp = false
          ∧ (Carries.strategies.lookup ty = none
            ∨ (Carries.truthy dec = true
              ∧ Carries.decorators.lookup (dec.getD "") = none)))) := by
  intro ty dec comp
  have tables : (match Carries.strategies.lookup ty with
      | none => Except.error (Carries.unsupported_msg ty dec)
      | some base =>
        if Carries.truthy dec then
          match Carries.decorators.lookup (dec.getD "") with
          | some d => Except.ok (d base)
          | none => Except.error (Carries.unsupported_msg ty dec)
        else Except.ok base) = Carries.resolve_tables ty dec := by
    unfold Carries.resolve_tables
    cases Carries.strategies.lookup ty with
    | none => rfl
    | some base =>
      cases dec with
      | none => rfl
      | some d =>
        by_cases hd : d.isEmpty <;>
          simp [Carries.truthy, hd]
  constructor
  · unfold Carries.get_shipping_strategy Carries.resolve_spec
    cases comp with
    | none => simpa [Carries.truthy] using tables
    | some c =>
      by_cases hc : c.isEmpty
      · simpa [Carries.truthy, hc] using tables
      · simp [Carries.truthy, hc]
  · unfold Carries.get_shipping_strategy
    by_cases hcomp : Carries.truthy comp = true
    · cases hlook : Carries.companies.lookup (comp.getD "") <;>
        simp [hcomp, hlook, Except.isOk, Except.toBool]
    · rw [Bool.not_eq_true] at hcomp
      cases hty : Carries.strategies.lookup ty with
      | none => simp [hcomp, hty, Except.isOk, Except.toBool]
      | some base =>
        by_cases hdec : Carries.truthy dec = true
        · cases hdlook : Carries.decorators.lookup (dec.getD "") <;>
            simp [hcomp, hty, hdec, hdlook, Except.isOk, Except.toBool]
        · rw [Bool.not_eq_true] at hdec
          simp [hcomp, hty, hdec, Except.isOk, Except.toBool]

/-- Claim C1 amended, witness: the amended contract evaluated at the
unrecognized-carrier input `("일반", None, "X")`. -/
theorem C1_amended_witness :
    Carries.get_shipping_strategy "일반" none (some "X")
      = Carries.resolve_spec "일반" none (some "X")
    ∧ ((Carries.get_shipping_strategy "일반" none (some "X")).isOk = false ↔
        (Carries.truthy (some "X") = true
          ∧ Carries.companies.lookup ((some "X").getD "") = none)
        ∨ (Carries.truthy (some "X") = false
          ∧ (Carries.strategies.lookup "일반" = none
            ∨ (Carries.truthy (none : Option String) = true
              ∧ Carries.decorators.lookup
                  ((none : Option String).getD "") = none)))) :=
  C1_amended "일반" none (some "X")

/-! ## Claim C10 -/

/-- Claim C10: the resolver tests the optional carrier and modifier keys by
string truthiness.  An empty-string carrier key behaves exactly as no carrier
(resolution proceeds through the method/modifier tables without raising for
the empty carrier key), and an empty-string modifier key leaves the resolved
method unwrapped rather than raising. -/
theorem C10 : ∀ (ty : String) (dec : Option String),
    Carries.get_shipping_strategy ty dec (some "")
      = Carries.get_shipping_strategy ty dec none
    ∧ (∀ b : Carries.Strategy, Carries.strategies.lookup ty = some b →
        Carries.get_shipping_strategy ty (some "") none = Except.ok b
        ∧ Carries.get_shipping_strategy ty none none = Except.ok b) := by
  intro ty dec
  have hempty : Carries.truthy (some "") = false := rfl
  have hnone : Carries.truthy none = false := rfl
  refine ⟨rfl, ?_⟩
  intro b hb
  constructor
  · simp [Carries.get_shipping_strategy, hempty, hnone, hb]
  · simp [Carries.get_shipping_strategy, hnone, hb]

/-- Claim C10, witness: with method key `"일반"`, an empty carrier key resolves
exactly as a missing one, and an empty modifier key yields the unwrapped
standard strategy. -/
theorem C10_witness :
    Carries.get_shipping_strategy "일반" none (some "")
      = Carries.get_shipping_strategy "일반" none none
    ∧ Carries.get_shipping_strategy "일반" (some "") none
      = Except.ok Carries.Strategy.standard :=
  ⟨(C10 "일반" none).1, ((C10 "일반" none).2 Carries.Strategy.standard rfl).1⟩

/-! ## Claim C2 -/

/-- Claim C2: for every base shipping method (Standard, NextDay,
International) and every item weight `w`, the cost equals the method's fixed
base plus the weight-tier surcharge — 0 when `w ≤ 5`, a fixed 2000 when
`5 < w ≤ 10`, and `5000 + 100·(w − 10)` when `w > 10`; in particular the cost
at weight 3 is the base, at weight 8 the base + 2000, and at weight 15 the
base + 5500.  (This is the weight-tiered `carries.py` revision; the
`carries_love.py` revision's base methods take no weight input.) -/
theorem C2 : ∀ s : Carries.Strategy,
    s ∈ [Carries.Strategy.standard, Carries.Strategy.nextDay,
         Carries.Strategy.international] →
    ∀ (v : ℚ) (c : String) (w : ℚ),
      Carries.calculate_cost s v c w
        = Carries.base_cost s
          + (if w ≤ 5 then 0 else if w ≤ 10 then 2000 else 5000 + (w - 10) * 100)
      ∧ Carries.calculate_cost s v c 3 = Carries.base_cost s
      ∧ Carries.calculate_cost s v c 8 = Carries.base_cost s + 2000
      ∧ Carries.calculate_cost s v c 15 = Carries.base_cost s + 5500 := by
  have h3 : Carries.weight_based_fee 3 = 0 := by
    norm_num [Carries.weight_based_fee]
  have h8 : Carries.weight_based_fee 8 = 2000 := by
    norm_num [Carries.weight_based_fee]
  have h15 : Carries.weight_based_fee 15 = 5500 := by
    norm_num [Carries.weight_based_fee]
  intro s hs v c w
  fin_cases hs <;>
    exact ⟨rfl, by simp [Carries.calculate_cost, Carries.base_cost, h3],
      by simp [Carries.calculate_cost, Carries.base_cost, h8],
      by norm_num [Carries.calculate_cost, Carries.base_cost, h15]⟩

/-- Claim C2, witness: the standard method at weight 7 pays its base 5000 plus
the middle-tier surcharge. -/
theorem C2_witness :
    Carries.Strategy.standard ∈ [Carries.Strategy.standard,
      Carries.Strategy.nextDay, Carries.Strategy.international]
    ∧ (Carries.calculate_cost Carries.Strategy.standard 0 "" 7
        = Carries.base_cost Carries.Strategy.standard
          + (if (7 : ℚ) ≤ 5 then 0
             else if (7 : ℚ) ≤ 10 then 2000 else 5000 + ((7 : ℚ) - 10) * 100)
      ∧ Carries.calculate_cost Carries.Strategy.standard 0 "" 3
        = Carries.base_cost Carries.Strategy.standard
      ∧ Carries.calculate_cost Carries.Strategy.standard 0 "" 8
        = Carries.base_cost Carries.Strategy.standard + 2000
      ∧ Carries.calculate_cost Carries.Strategy.standard 0 "" 15
        = Carries.base_cost Carries.Strategy.standard + 5500) :=
  ⟨by simp, C2 Carries.Strategy.standard (by simp) 0 "" 7⟩

/-! ## Claim C5 -/

/-- Claim C5: every modifier delegates `get_delivery_steps` and
`calculate_arrival_time` unchanged to the strategy it wraps, and its cost is
exactly the wrapped strategy's cost plus the modifier's additive delta — 1%
of item value for `carries_love.py`'s insurance, a fixed 10000 for priority,
and 10% of item value for `carries.py`'s insurance decorator; for a
non-negative item value the modified cost is never below the wrapped cost. -/
theorem C5 : ∀ (m : CarriesLove.Modifier) (s : CarriesLove.Strategy)
    (s2 : Carries.Strategy) (v : ℚ) (c dest orig : String) (t : Int) (w : ℚ),
    CarriesLove.calculate_cost (m.apply s) v c
      = CarriesLove.calculate_cost s v c + m.delta v
    ∧ CarriesLove.get_delivery_steps (m.apply s) dest orig t
      = CarriesLove.get_delivery_steps s dest orig t
    ∧ CarriesLove.calculate_arrival_time (m.apply s) t
      = CarriesLove.calculate_arrival_time s t
    ∧ Carries.calculate_cost (Carries.Strategy.insurance s2) v c w
      = Carries.calculate_cost s2 v "" w + v * (1 / 10)
    ∧ Carries.get_delivery_steps (Carries.Strategy.insurance s2) dest orig t
      = Carries.get_delivery_steps s2 dest orig t
    ∧ Carries.calculate_arrival_time (Carries.Strategy.insurance s2) t
      = Carries.calculate_arrival_time s2 t
    ∧ (0 ≤ v → CarriesLove.calculate_cost s v c
        ≤ CarriesLove.calculate_cost (m.apply s) v c) := by
  intro m s s2 v c dest orig t w
  refine ⟨?_, ?_, ?_, rfl, rfl, rfl, ?_⟩
  · cases m <;> rfl
  · cases m <;> rfl
  · cases m <;> rfl
  · intro hv
    cases m with
    | insurance =>
      have hd : 0 ≤ v * (1 / 100 : ℚ) := by positivity
      simp only [CarriesLove.Modifier.apply, CarriesLove.calculate_cost]
      linarith
    | priority =>
      simp only [CarriesLove.Modifier.apply, CarriesLove.calculate_cost]
      linarith

/-- Claim C5, witness: the insurance modifier over the standard method at item
value 100 adds exactly its 1% delta and does not lower the cost. -/
theorem C5_witness :
    CarriesLove.calculate_cost
        (CarriesLove.Modifier.insurance.apply CarriesLove.Strategy.standard) 100 ""
      = CarriesLove.calculate_cost CarriesLove.Strategy.standard 100 ""
        + CarriesLove.Modifier.insurance.delta 100
    ∧ CarriesLove.calculate_cost CarriesLove.Strategy.standard 100 ""
      ≤ CarriesLove.calculate_cost
          (CarriesLove.Modifier.insurance.apply CarriesLove.Strategy.standard) 100 "" :=
  ⟨(C5 CarriesLove.Modifier.insurance CarriesLove.Strategy.standard
      Carries.Strategy.standard 100 "" "" "" 0 0).1,
   (C5 CarriesLove.Modifier.insurance CarriesLove.Strategy.standard
      Carries.Strategy.standard 100 "" "" "" 0 0).2.2.2.2.2.2 (by norm_num)⟩

/-! ## Claim C6 -/

/-- Claim C6: for every base strategy, every pair of modifiers A, B and all
cost inputs, the cost of the chain B(A(M)) is M's cost plus A's delta plus
B's delta, and coincides with the cost of A(B(M)) — decorator cost stacking
is additive and independent of chain order. -/
theorem C6 : ∀ (a b : CarriesLove.Modifier) (s : CarriesLove.Strategy)
    (v : ℚ) (c : String),
    CarriesLove.calculate_cost (b.apply (a.apply s)) v c
      = CarriesLove.calculate_cost s v c + a.delta v + b.delta v
    ∧ CarriesLove.calculate_cost (b.apply (a.apply s)) v c
      = CarriesLove.calculate_cost (a.apply (b.apply s)) v c := by
  intro a b s v c
  refine ⟨?_, ?_⟩ <;>
    cases a <;> cases b <;>
      simp [CarriesLove.Modifier.apply, CarriesLove.Modifier.delta,
        CarriesLove.calculate_cost] <;>
      ring

/-! ## Claim C4 -/

theorem count_pair_map (st : Option String) (o : ObsId) :
    ∀ l : List ObsId, (l.map (fun x => (x, st))).count (o, st) = l.count o
  | [] => rfl
  | a :: l => by
    simp [List.count_cons, count_pair_map st o l, Prod.ext_iff]

/-- Claim C4: `notify(eventType)` delivers to exactly the live registrations
under `eventType`, in attachment order, with the current state — once per
registration per `set_state` call; dead handles are silently skipped (never
delivered to) while the registration list itself is only read by `notify`
(`set_state` leaves `_observers` unchanged, so skipped handles stay in the
list); and a subscriber attached twice under one event type receives exactly
two more deliveries from a single `notify` than its prior registration count.
-/
theorem C4 : ∀ (s : Subject) (st et : String) (live : ObsId → Bool),
    s.notify et live
      = ((s.regsOf et).filter live).map (fun o => (o, s.state))
    ∧ (∀ o : ObsId, live o = true →
        (s.notify et live).count (o, s.state) = (s.regsOf et).count o)
    ∧ (∀ (o : ObsId) (d : ObsId × Option String), live o = false →
        d ∈ s.notify et live → d.1 ≠ o)
    ∧ (s.set_state st et live).1.observers = s.observers
    ∧ (s.set_state st et live).2 = (s.set_state st et live).1.notify et live
    ∧ (∀ o : ObsId, live o = true →
        (((s.attach o et).attach o et).notify et live).count (o, s.state)
          = (s.regsOf et).count o + 2) := by
  intro s st et live
  refine ⟨Subject.notify_eq_map s et live, ?_, ?_, rfl, rfl, ?_⟩
  · intro o ho
    rw [Subject.notify_eq_map, count_pair_map, List.count_filter ho]
  · intro o d ho hd
    rw [Subject.notify_eq_map] at hd
    rcases List.mem_map.mp hd with ⟨o', ho', rfl⟩
    have hlive : live o' = true := (List.mem_filter.mp ho').2
    intro hcontra
    have hco : o' = o := hcontra
    rw [hco, ho] at hlive
    exact Bool.false_ne_true hlive
  · intro o ho
    rw [Subject.notify_eq_map]
    simp only [Subject.state_attach]
    rw [count_pair_map, (s.attach o et).regsOf_attach_self o et,
      s.regsOf_attach_self o et, List.filter_append, List.filter_append,
      List.count_append, List.count_append, List.count_filter ho]
    simp [List.filter_cons, ho]

/-- Claim C4, witness: on the sample subject, a single live registration gets
exactly one delivery, no delivery goes to a dead observer, and attaching
observer 1 twice yields exactly two deliveries to it. -/
theorem C4_witness :
    (sampleSubject.notify "배송 상태" allLive).count (0, sampleSubject.state)
      = (sampleSubject.regsOf "배송 상태").count 0
    ∧ (((sampleSubject.attach 1 "배송 상태").attach 1 "배송 상태").notify
        "배송 상태" allLive).count (1, sampleSubject.state)
      = (sampleSubject.regsOf "배송 상태").count 1 + 2 :=
  ⟨(C4 sampleSubject "" "배송 상태" allLive).2.1 0 rfl,
   (C4 sampleSubject "" "배송 상태" allLive).2.2.2.2.2 1 rfl⟩

/-! ## Claim C7 -/

/-- Claim C7: `TrackedPackage.set_state` appends the new state to the
tracker's history strictly before updating the current state and notifying:
the package value from which the notification events are computed (returned as
the first component) already carries the appended history, whose last element
is the new state, and every event delivered by the embedded `notify` call
carries the new state.  A subscriber reading the history during its update
callback therefore already observes the new entry as the last element. -/
theorem C7 : ∀ (p : TrackedPackage) (st et : String) (live : ObsId → Bool),
    (p.set_state st et live).1.tracker.history = p.tracker.history ++ [st]
    ∧ (p.set_state st et live).1.tracker.history.getLast? = some st
    ∧ (p.set_state st et live).1.subj.state = some st
    ∧ (p.set_state st et live).2 = (p.set_state st et live).1.subj.notify et live
    ∧ (p.set_state st et live).2
      = (((p.set_state st et live).1.subj.regsOf et).filter live).map
          (fun o => (o, some st)) := by
  intro p st et live
  refine ⟨rfl, ?_, rfl, rfl, ?_⟩
  · show (p.tracker.history ++ [st]).getLast? = some st
    simp
  · exact Subject.notify_eq_map ((p.set_state st et live).1.subj) et live

/-! ## Claim C8 -/

/-- Claim C8: `detach(subscriber, eventType)` removes exactly the first
matching registration when one is present (one fewer occurrence, length one
smaller) and is a no-op — never an error — when the subscriber has no
registration under that event type (including a never-attached or
already-detached subscriber); after detaching a subscriber's only
registration, a subsequent `notify` on that event type delivers nothing to
it.  (Events delivered before the detach are values already returned by
earlier `notify` calls and are unaffected by construction.) -/
theorem C8 : ∀ (s : Subject) (o : ObsId) (et : String) (live : ObsId → Bool),
    (s.detach o et).regsOf et = (s.regsOf et).erase o
    ∧ (o ∈ s.regsOf et →
        ((s.detach o et).regsOf et).length + 1 = (s.regsOf et).length)
    ∧ ((s.detach o et).regsOf et).count o = (s.regsOf et).count o - 1
    ∧ (o ∉ s.regsOf et → s.detach o et = s)
    ∧ ((s.regsOf et).count o = 1 →
        ∀ d ∈ (s.detach o et).notify et live, d.1 ≠ o) := by
  intro s o et live
  have hregs := s.regsOf_detach_self o et
  refine ⟨hregs, ?_, ?_, ?_, ?_⟩
  · intro hm
    have hpos : 0 < (s.regsOf et).length := List.length_pos_of_mem hm
    rw [hregs, List.length_erase_of_mem hm]
    omega
  · rw [hregs, List.count_erase_self]
  · intro hnm
    cases h : dictGet s.observers et with
    | none => simp [Subject.detach, h]
    | some l =>
      have hl : s.regsOf et = l := by simp [Subject.regsOf, h]
      simp [Subject.detach, h, List.erase_of_not_mem (hl ▸ hnm),
        dictSet_eq_self s.observers et l h]
  · intro h1 d hd
    rw [Subject.notify_eq_map] at hd
    rcases List.mem_map.mp hd with ⟨o', ho', rfl⟩
    have hmem : o' ∈ (s.detach o et).regsOf et := (List.mem_filter.mp ho').1
    rw [hregs] at hmem
    intro hcontra
    have hco : o' = o := hcontra
    rw [hco] at hmem
    have hcount : ((s.regsOf et).erase o).count o = 0 := by
      rw [List.count_erase_self, h1]
    exact (List.count_eq_zero.mp hcount) hmem

/-- Claim C8, witness: on the sample subject, detaching the only registration
of observer 0 shrinks its event list by one, detaching the never-attached
observer 1 is a no-op, and a notify after detaching observer 0 delivers
nothing to it. -/
theorem C8_witness :
    (0 ∈ sampleSubject.regsOf "배송 상태")
    ∧ ((sampleSubject.detach 0 "배송 상태").regsOf "배송 상태").length + 1
      = (sampleSubject.regsOf "배송 상태").length
    ∧ (1 ∉ sampleSubject.regsOf "배송 상태")
    ∧ sampleSubject.detach 1 "배송 상태" = sampleSubject
    ∧ (sampleSubject.regsOf "배송 상태").count 0 = 1
    ∧ ∀ d ∈ (sampleSubject.detach 0 "배송 상태").notify "배송 상태" allLive,
        d.1 ≠ 0 :=
  ⟨by decide,
   (C8 sampleSubject 0 "배송 상태" allLive).2.1 (by decide),
   by decide,
   (C8 sampleSubject 1 "배송 상태" allLive).2.2.2.1 (by decide),
   by decide,
   (C8 sampleSubject 0 "배송 상태" allLive).2.2.2.2 (by decide)⟩

/-! ## Claim C9 -/

/-- Claim C9, counterexample.  `get_history` (`return self.history`) hands the
caller the live internal list object, not a snapshot or an immutable view:
after recording one status, clearing the list returned by `get_history`
empties the tracker's own log — a caller CAN delete past entries through the
returned value.  (Modelled with explicit reference semantics: the tracker's
`history` attribute is a heap cell and `get_history` returns its address.) -/
theorem C9_counterexample :
    RefModel.Heap.read
        (RefModel.PackageTracker.update_status ⟨fun _ => []⟩ ⟨"PKG-1", 0⟩ "접수")
        0 = ["접수"]
    ∧ RefModel.Heap.read
        (RefModel.listClear
          (RefModel.PackageTracker.update_status ⟨fun _ => []⟩ ⟨"PKG-1", 0⟩ "접수")
          (RefModel.PackageTracker.get_history ⟨"PKG-1", 0⟩))
        0 = [] := by
  exact ⟨rfl, rfl⟩

/-- Claim C9, amended: the Package Tracker's log is append-only under the
tracker's own operations — `recordStatus` appends the status to the end of the
log and touches no other log, and no tracker operation reorders or deletes
past entries — but `history()` returns the live internal list itself (the
reference, not a snapshot or immutable view), so a caller mutating the
returned list mutates the log. -/
theorem C9_amended : ∀ (h : RefModel.Heap) (t : RefModel.PackageTracker)
    (st : String),
    RefModel.Heap.read (RefModel.PackageTracker.update_status h t st)
        t.historyRef
      = RefModel.Heap.read h t.historyRef ++ [st]
    ∧ (∀ r : Nat, r ≠ t.historyRef →
        RefModel.Heap.read (RefModel.PackageTracker.update_status h t st) r
          = RefModel.Heap.read h r)
    ∧ RefModel.PackageTracker.get_history t = t.historyRef := by
  intro h t st
  refine ⟨?_, ?_, rfl⟩
  · simp [RefModel.PackageTracker.update_status, RefModel.Heap.read,
      RefModel.Heap.write]
  · intro r hr
    simp [RefModel.PackageTracker.update_status, RefModel.Heap.read,
      RefModel.Heap.write, hr]

/-- Claim C9 amended, witness: concrete append on cell 0 leaves cell 1
untouched and `get_history` returns the log's address. -/
theorem C9_amended_witness :
    (1 : Nat) ≠ 0
    ∧ RefModel.Heap.read
        (RefModel.PackageTracker.update_status ⟨fun _ => []⟩ ⟨"PKG-1", 0⟩ "배송 중")
        0
      = RefModel.Heap.read (⟨fun _ => []⟩ : RefModel.Heap) 0 ++ ["배송 중"]
    ∧ RefModel.Heap.read
        (RefModel.PackageTracker.update_status ⟨fun _ => []⟩ ⟨"PKG-1", 0⟩ "배송 중")
        1
      = RefModel.Heap.read (⟨fun _ => []⟩ : RefModel.Heap) 1
    ∧ RefModel.PackageTracker.get_history ⟨"PKG-1", 0⟩ = 0 :=
  ⟨by decide,
   (C9_amended ⟨fun _ => []⟩ ⟨"PKG-1", 0⟩ "배송 중").1,
   (C9_amended ⟨fun _ => []⟩ ⟨"PKG-1", 0⟩ "배송 중").2.1 1 (by decide),
   (C9_amended ⟨fun _ => []⟩ ⟨"PKG-1", 0⟩ "배송 중").2.2⟩

/-! ## Claim C3 -/

/-- Claim C3, evaluation.  The claim fails on `carries.py`: the resolver
accepts `(methodKey = "일반", modifierKey = "보험")` and the resolved strategy's
`get_delivery_steps` returns 4 steps, yet the driver never calls `set_state`
at all — line 352 calls `calculate_cost(item_value, destination_country,
item_weight)` with three positional arguments while
`InsuranceDecorator.calculate_cost` is declared with only
`(item_value, item_weight = 0)`, so Python raises `TypeError` before the step
loop and the history stays empty.  (The same class itself calls
`super().calculate_cost` with three arguments, and the `carries_love.py`
revision declares the uniform signature, so the signature is a slip.)  For a
resolution without a modifier the driver behaves exactly as the claim states:
one `set_state` per step in order, history equal to the step list, final state
the last step, and the branch detached afterwards. -/
theorem C3_bug_eval :
    Carries.get_shipping_strategy "일반" (some "보험") none
      = Except.ok (Carries.Strategy.insurance Carries.Strategy.standard)
    ∧ (Carries.get_delivery_steps
        (Carries.Strategy.insurance Carries.Strategy.standard)
        "서울" "부산" 0).length = 4
    ∧ Carries.setup_tracked_package "서울" "부산" "일반" "PKG-1" (some "보험")
        none 100 "대한민국" 3 0 allLive
      = Except.error
        "TypeError: calculate_cost() takes from 2 to 3 positional arguments but 4 were given"
    ∧ Carries.setup_tracked_package "서울" "부산" "일반" "PKG-1" none none
        100 "대한민국" 3 0 allLive
      = Except.ok
        (⟨⟨[("배송 상태", [])], some "배송 완료"⟩,
          ⟨"PKG-1",
           Carries.get_delivery_steps Carries.Strategy.standard "서울" "부산" 0⟩⟩,
         Carries.get_delivery_steps Carries.Strategy.standard "서울" "부산" 0) := by
  exact ⟨rfl, rfl, rfl, rfl⟩

end DeliveryCarriesLove
